import Mathlib

/-
Verification of the quantity-takeoff engine of QS-Tools
(src/Staircase/services/stairCalculator.ts, `calculateStairMetrics`).

Shallow embedding choices:
* All JavaScript numbers are modelled as exact rationals (ℚ); counts are ℕ.
* `Math.round x` is modelled as Mathlib `round` (= ⌊x + 1/2⌋), which agrees
  with JavaScript `Math.round` on every real argument (ties go toward +∞).
* `Math.floor (a / b)` and `a % b` on the nonnegative integers `total_risers`
  and `num_flights` are modelled as ℕ division and ℕ modulus.
* `Math.sqrt` forces a real-valued layer.  The source stores
  `inclined_length = sqrt(run² + rise²)` inside each flight record and then
  derives `total_inclined_length`, `volume_waist_slabs`,
  `formwork_bottom_slab`, `total_volume` and `total_formwork_area` from it.
  In exact arithmetic the stored value is determined by the stored `run` and
  `rise`, so the embedding keeps `run`/`rise` (ℚ) in `FlightData` and exposes
  `inclined_length` as the ℝ-valued function of a flight; the five
  sqrt-dependent report quantities become ℝ-valued functions of the input,
  computed from the report's flight list and constants exactly as the source
  computes them.  In the invalid-input branch the source returns literal 0
  for those five fields; the functions also yield 0 there because the flight
  list is empty, so the two presentations agree on every input.
-/

namespace QSTools

/-- `StairInputParams` (src/Staircase/types.ts): eight scalar inputs.
`height` is in meters, every other length in millimeters. -/
structure StairInputParams where
  height : ℚ
  stairWidth : ℚ
  riser : ℚ
  tread : ℚ
  slabThick : ℚ
  landingLength : ℚ
  landingDepth : ℚ
  landingThick : ℚ
deriving DecidableEq

/-- `FlightData` (src/Staircase/types.ts) minus the sqrt-valued field:
`risers`, `treads` are counts, `run`, `rise` lengths in meters.
`inclined_length` is recovered by the function below. -/
structure FlightData where
  risers : ℕ
  treads : ℕ
  run : ℚ
  rise : ℚ
deriving DecidableEq

/-- `inclined_length = Math.sqrt(run**2 + rise**2)` (stairCalculator.ts line 65). -/
noncomputable def FlightData.inclined_length (f : FlightData) : ℝ :=
  Real.sqrt ((f.run : ℝ) ^ 2 + (f.rise : ℝ) ^ 2)

/-- `StairMetrics` (src/Staircase/types.ts), restricted to the fields that do
not depend on `Math.sqrt`; the remaining five are ℝ-valued functions below. -/
structure StairMetrics where
  num_flights : ℕ
  num_landings : ℕ
  total_treads : ℕ
  formwork_landing_bottom : ℚ
  formwork_risers : ℚ
  formwork_above_slab : ℚ
  volume_landings : ℚ
  volume_steps : ℚ
  flights_data : List FlightData
  R : ℚ
  T : ℚ
  ST : ℚ
  LD : ℚ
  LT : ℚ
deriving DecidableEq

/-- `const total_risers = Math.round(H / R)` (line 26).  For valid input
`H / R > 0`, so the rounded integer is nonnegative and `toNat` is exact. -/
def totalRisers (p : StairInputParams) : ℕ :=
  (round (p.height / (p.riser / 1000))).toNat

/-- The flight-count selection (lines 28-44): 0 when `total_risers == 0`,
otherwise the height-banded policy with fallback `ceil(total_risers / 18)`. -/
def numFlightsPre (H : ℚ) (tr : ℕ) : ℕ :=
  if tr = 0 then 0
  else if H ≤ 5.7 then 2
  else if H ≤ 8 then 4
  else if H ≤ 12 then 6
  else (Int.ceil ((tr : ℚ) / 18)).toNat

/-- The clamp (lines 48-50): `num_flights = min(num_flights, total_risers)`
whenever `total_risers > 0`. -/
def numFlights (H : ℚ) (tr : ℕ) : ℕ :=
  if 0 < tr then min (numFlightsPre H tr) tr else numFlightsPre H tr

/-- Per-flight geometry (lines 62-66): `treads = risers - 1`,
`run = treads * T`, `rise = risers * R`. -/
def mkFlight (risers : ℕ) (R T : ℚ) : FlightData :=
  { risers := risers
    treads := risers - 1
    run := (risers - 1 : ℕ) * T
    rise := risers * R }

/-- The distribution loop (lines 55-67): `base = floor(tr / nf)`,
`extra = tr % nf` (both 0 when `nf == 0`), flight `i` gets `base + 1` risers
when `i < extra` else `base`, and a zero-riser flight is skipped
(`if (risers === 0) continue`). -/
def risersAt (nf tr i : ℕ) : ℕ :=
  (if 0 < nf then tr / nf else 0) + (if i < (if 0 < nf then tr % nf else 0) then 1 else 0)

def flightsData (nf tr : ℕ) (R T : ℚ) : List FlightData :=
  (List.range nf).filterMap fun i =>
    if risersAt nf tr i = 0 then none else some (mkFlight (risersAt nf tr i) R T)

/-- `calculateStairMetrics` (stairCalculator.ts lines 3-121), sqrt-free part.
The invalid-input branch (lines 15-22) returns the zeroed record with the
normalized constants echoed; the main branch mirrors lines 26-120. -/
def calculateStairMetrics (p : StairInputParams) : StairMetrics :=
  let H := p.height
  let SW := p.stairWidth / 1000
  let R := p.riser / 1000
  let T := p.tread / 1000
  let ST := p.slabThick / 1000
  let LL := p.landingLength / 1000
  let LD := p.landingDepth / 1000
  let LT := p.landingThick / 1000
  if R ≤ 0 ∨ H ≤ 0 ∨ T ≤ 0 then
    { num_flights := 0, num_landings := 0, total_treads := 0
      formwork_landing_bottom := 0, formwork_risers := 0, formwork_above_slab := 0
      volume_landings := 0, volume_steps := 0, flights_data := []
      R := R, T := T, ST := ST, LD := LD, LT := LT }
  else
    let tr := totalRisers p
    let nf := numFlights H tr
    let nl := if 0 < nf then nf - 1 else 0
    let fd := flightsData nf tr R T
    { num_flights := nf
      num_landings := nl
      total_treads := (fd.map FlightData.treads).sum
      formwork_landing_bottom := LL * LD * nl
      formwork_risers := ((R * SW) + (R * T / 2)) * tr
      formwork_above_slab := 0
      volume_landings := (LL * LD * LT) * nl
      volume_steps := (fd.map fun f => (SW * T * R / 2) * f.treads).sum
      flights_data := fd
      R := R, T := T, ST := ST, LD := LD, LT := LT }

/-- `total_inclined_length` (accumulated at line 80). -/
noncomputable def total_inclined_length (p : StairInputParams) : ℝ :=
  ((calculateStairMetrics p).flights_data.map FlightData.inclined_length).sum

/-- `volume_waist_slabs` (line 81): `Σ inclined_length * SW * ST`;
0 in the invalid branch, where the flight list is empty. -/
noncomputable def volume_waist_slabs (p : StairInputParams) : ℝ :=
  ((calculateStairMetrics p).flights_data.map fun f =>
    f.inclined_length * ((p.stairWidth : ℝ) / 1000) * ((p.slabThick : ℝ) / 1000)).sum

/-- `formwork_bottom_slab` (line 88):
`total_inclined_length * SW + total_inclined_length * ST`. -/
noncomputable def formwork_bottom_slab (p : StairInputParams) : ℝ :=
  total_inclined_length p * ((p.stairWidth : ℝ) / 1000)
    + total_inclined_length p * ((p.slabThick : ℝ) / 1000)

/-- `total_volume` (line 102): waist slabs + steps + landings. -/
noncomputable def total_volume (p : StairInputParams) : ℝ :=
  volume_waist_slabs p + ((calculateStairMetrics p).volume_steps : ℝ)
    + ((calculateStairMetrics p).volume_landings : ℝ)

/-- `total_formwork_area` (line 105): bottom slab + landing bottoms + risers. -/
noncomputable def total_formwork_area (p : StairInputParams) : ℝ :=
  formwork_bottom_slab p + ((calculateStairMetrics p).formwork_landing_bottom : ℝ)
    + ((calculateStairMetrics p).formwork_risers : ℝ)

/-! ### Shared lemmas -/

/-- Valid inputs fail the invalid-input test of line 15. -/
lemma not_invalid_cond (p : StairInputParams)
    (hR : 0 < p.riser) (hH : 0 < p.height) (hT : 0 < p.tread) :
    ¬(p.riser / 1000 ≤ 0 ∨ p.height ≤ 0 ∨ p.tread / 1000 ≤ 0) := by
  push_neg
  exact ⟨by positivity, hH, by positivity⟩

/-- On valid input, the engine takes the main branch. -/
lemma calc_of_valid (p : StairInputParams)
    (hR : 0 < p.riser) (hH : 0 < p.height) (hT : 0 < p.tread) :
    calculateStairMetrics p =
      (let SW := p.stairWidth / 1000
      let R := p.riser / 1000
      let T := p.tread / 1000
      let LL := p.landingLength / 1000
      let LD := p.landingDepth / 1000
      let tr := totalRisers p
      let nf := numFlights p.height tr
      let nl := if 0 < nf then nf - 1 else 0
      let fd := flightsData nf tr R T
      { num_flights := nf
        num_landings := nl
        total_treads := (fd.map FlightData.treads).sum
        formwork_landing_bottom := LL * LD * nl
        formwork_risers := ((R * SW) + (R * T / 2)) * tr
        formwork_above_slab := 0
        volume_landings := (LL * LD * (p.landingThick / 1000)) * nl
        volume_steps := (fd.map fun f => (SW * T * R / 2) * f.treads).sum
        flights_data := fd
        R := R, T := T, ST := p.slabThick / 1000, LD := LD
        LT := p.landingThick / 1000 } : StairMetrics) := by
  simp only [calculateStairMetrics, if_neg (not_invalid_cond p hR hH hT)]

/-- On invalid input, the engine takes the zero-report branch. -/
lemma calc_of_invalid (p : StairInputParams)
    (h : p.riser ≤ 0 ∨ p.height ≤ 0 ∨ p.tread ≤ 0) :
    calculateStairMetrics p =
      { num_flights := 0, num_landings := 0, total_treads := 0
        formwork_landing_bottom := 0, formwork_risers := 0, formwork_above_slab := 0
        volume_landings := 0, volume_steps := 0, flights_data := []
        R := p.riser / 1000, T := p.tread / 1000, ST := p.slabThick / 1000
        LD := p.landingDepth / 1000, LT := p.landingThick / 1000 } := by
  have h' : p.riser / 1000 ≤ 0 ∨ p.height ≤ 0 ∨ p.tread / 1000 ≤ 0 := by
    rcases h with h | h | h
    · exact Or.inl (by linarith)
    · exact Or.inr (Or.inl h)
    · exact Or.inr (Or.inr (by linarith))
  simp only [calculateStairMetrics, if_pos h']

/-- With at least one riser, every band of the policy selects at least one
flight (the fallback band because `⌈tr / 18⌉ ≥ 1` for `tr ≥ 1`). -/
lemma numFlightsPre_pos (H : ℚ) (tr : ℕ) (h : 0 < tr) :
    0 < numFlightsPre H tr := by
  unfold numFlightsPre
  rw [if_neg (Nat.pos_iff_ne_zero.mp h)]
  split_ifs with h1 h2 h3
  · norm_num
  · norm_num
  · norm_num
  · have hq : (0 : ℚ) < (tr : ℚ) / 18 := by positivity
    have hz : (0 : ℤ) < Int.ceil ((tr : ℚ) / 18) := Int.ceil_pos.mpr hq
    have := Int.toNat_of_nonneg hz.le
    omega

lemma numFlights_pos (H : ℚ) (tr : ℕ) (h : 0 < tr) :
    0 < numFlights H tr := by
  unfold numFlights
  rw [if_pos h]
  exact lt_min (numFlightsPre_pos H tr h) h

lemma numFlights_le (H : ℚ) (tr : ℕ) (h : 0 < tr) :
    numFlights H tr ≤ tr := by
  unfold numFlights
  rw [if_pos h]
  exact min_le_right _ _

lemma numFlights_zero (H : ℚ) : numFlights H 0 = 0 := by
  unfold numFlights numFlightsPre
  norm_num

/-- When `0 < nf ≤ tr` every flight receives at least `base = tr / nf ≥ 1`
risers, so the zero-riser skip of line 61 never fires and the loop produces
exactly one flight per index. -/
lemma flightsData_of_le (nf tr : ℕ) (R T : ℚ) (h0 : 0 < nf) (hle : nf ≤ tr) :
    flightsData nf tr R T =
      (List.range nf).map fun i =>
        mkFlight (tr / nf + if i < tr % nf then 1 else 0) R T := by
  have hbase : 0 < tr / nf := Nat.div_pos hle h0
  unfold flightsData
  have hfun : (fun i => if risersAt nf tr i = 0 then none
      else some (mkFlight (risersAt nf tr i) R T)) =
      fun i => some (mkFlight (tr / nf + if i < tr % nf then 1 else 0) R T) := by
    funext i
    have hr : risersAt nf tr i = tr / nf + if i < tr % nf then 1 else 0 := by
      simp [risersAt, if_pos h0]
    rw [hr, if_neg (by omega)]
  rw [hfun]
  exact congrFun (List.filterMap_eq_map _) _

lemma sum_range_const_add_ite (base e n : ℕ) :
    ((List.range n).map fun i => base + if i < e then 1 else 0).sum =
      n * base + min e n := by
  induction n with
  | zero => simp
  | succ n ih =>
    rw [List.sum_range_succ, ih]
    by_cases h : n < e
    · rw [if_pos h, Nat.succ_mul]
      omega
    · rw [if_neg h, Nat.succ_mul]
      omega

/-! ### Claims -/

/-- C1: any input with `riser ≤ 0`, `height ≤ 0` or `tread ≤ 0` yields the
zero report: every aggregate field is exactly 0 and the flight list is empty,
while the echoed constants R, T, ST, LD, LT are still the millimeter inputs
divided by 1000 (the function returns this report rather than raising, which
is inherent to it being total). -/
theorem C1_invalid_input_zero_report (p : StairInputParams)
    (h : p.riser ≤ 0 ∨ p.height ≤ 0 ∨ p.tread ≤ 0) :
    (calculateStairMetrics p).num_flights = 0 ∧
    (calculateStairMetrics p).num_landings = 0 ∧
    (calculateStairMetrics p).total_treads = 0 ∧
    total_volume p = 0 ∧
    total_formwork_area p = 0 ∧
    formwork_bottom_slab p = 0 ∧
    (calculateStairMetrics p).formwork_landing_bottom = 0 ∧
    (calculateStairMetrics p).formwork_risers = 0 ∧
    (calculateStairMetrics p).formwork_above_slab = 0 ∧
    volume_waist_slabs p = 0 ∧
    (calculateStairMetrics p).volume_landings = 0 ∧
    (calculateStairMetrics p).volume_steps = 0 ∧
    (calculateStairMetrics p).flights_data = [] ∧
    (calculateStairMetrics p).R = p.riser / 1000 ∧
    (calculateStairMetrics p).T = p.tread / 1000 ∧
    (calculateStairMetrics p).ST = p.slabThick / 1000 ∧
    (calculateStairMetrics p).LD = p.landingDepth / 1000 ∧
    (calculateStairMetrics p).LT = p.landingThick / 1000 := by
  have hc := calc_of_invalid p h
  simp [total_volume, total_formwork_area, formwork_bottom_slab,
    total_inclined_length, volume_waist_slabs, hc]

/-- Default scenario inputs except `riser = 0`: a concrete invalid input. -/
def pInvalid : StairInputParams :=
  { height := 4, stairWidth := 1950, riser := 0, tread := 280,
    slabThick := 150, landingLength := 4100, landingDepth := 1495,
    landingThick := 200 }

/-- Witness for C1 at the concrete invalid input `pInvalid`. -/
theorem C1_witness :
    (calculateStairMetrics pInvalid).num_flights = 0 ∧
    (calculateStairMetrics pInvalid).num_landings = 0 ∧
    (calculateStairMetrics pInvalid).total_treads = 0 ∧
    total_volume pInvalid = 0 ∧
    total_formwork_area pInvalid = 0 ∧
    formwork_bottom_slab pInvalid = 0 ∧
    (calculateStairMetrics pInvalid).formwork_landing_bottom = 0 ∧
    (calculateStairMetrics pInvalid).formwork_risers = 0 ∧
    (calculateStairMetrics pInvalid).formwork_above_slab = 0 ∧
    volume_waist_slabs pInvalid = 0 ∧
    (calculateStairMetrics pInvalid).volume_landings = 0 ∧
    (calculateStairMetrics pInvalid).volume_steps = 0 ∧
    (calculateStairMetrics pInvalid).flights_data = [] ∧
    (calculateStairMetrics pInvalid).R = pInvalid.riser / 1000 ∧
    (calculateStairMetrics pInvalid).T = pInvalid.tread / 1000 ∧
    (calculateStairMetrics pInvalid).ST = pInvalid.slabThick / 1000 ∧
    (calculateStairMetrics pInvalid).LD = pInvalid.landingDepth / 1000 ∧
    (calculateStairMetrics pInvalid).LT = pInvalid.landingThick / 1000 :=
  C1_invalid_input_zero_report pInvalid (Or.inl (by norm_num [pInvalid]))

/-- The application's default scenario: height 4 m, width 1950 mm, riser
180 mm, tread 280 mm, slab 150 mm, landing 4100 × 1495 × 200 mm. -/
def pDefault : StairInputParams :=
  { height := 4, stairWidth := 1950, riser := 180, tread := 280,
    slabThick := 150, landingLength := 4100, landingDepth := 1495,
    landingThick := 200 }

/-- C2: on valid input, `totalRisers = 0` gives `num_flights = 0`; otherwise
the pre-clamp flight count follows the height-banded policy with inclusive
upper bounds: 2 flights for `H ≤ 5.7`, 4 for `5.7 < H ≤ 8`, 6 for
`8 < H ≤ 12`, and `⌈totalRisers / 18⌉` for `H > 12`. -/
theorem C2_height_banded_policy (p : StairInputParams)
    (hR : 0 < p.riser) (hH : 0 < p.height) (hT : 0 < p.tread) :
    (totalRisers p = 0 → (calculateStairMetrics p).num_flights = 0) ∧
    (totalRisers p ≠ 0 →
      (p.height ≤ 5.7 → numFlightsPre p.height (totalRisers p) = 2) ∧
      (5.7 < p.height → p.height ≤ 8 →
        numFlightsPre p.height (totalRisers p) = 4) ∧
      (8 < p.height → p.height ≤ 12 →
        numFlightsPre p.height (totalRisers p) = 6) ∧
      (12 < p.height →
        numFlightsPre p.height (totalRisers p) =
          (Int.ceil ((totalRisers p : ℚ) / 18)).toNat)) := by
  constructor
  · intro htr
    rw [calc_of_valid p hR hH hT]
    simp only [htr, numFlights_zero]
  · intro htr
    refine ⟨fun h1 => ?_, fun h1 h2 => ?_, fun h1 h2 => ?_, fun h1 => ?_⟩
    · rw [numFlightsPre, if_neg htr, if_pos h1]
    · rw [numFlightsPre, if_neg htr, if_neg (not_le.mpr h1), if_pos h2]
    · rw [numFlightsPre, if_neg htr, if_neg (by linarith : ¬p.height ≤ 5.7),
        if_neg (not_le.mpr h1), if_pos h2]
    · rw [numFlightsPre, if_neg htr, if_neg (by linarith : ¬p.height ≤ 5.7),
        if_neg (by linarith : ¬p.height ≤ 8), if_neg (not_le.mpr h1)]

/-- Witness for C2 at the default scenario (height 4 m, 22 total risers). -/
theorem C2_witness :
    (totalRisers pDefault = 0 → (calculateStairMetrics pDefault).num_flights = 0) ∧
    (totalRisers pDefault ≠ 0 →
      (pDefault.height ≤ 5.7 → numFlightsPre pDefault.height (totalRisers pDefault) = 2) ∧
      (5.7 < pDefault.height → pDefault.height ≤ 8 →
        numFlightsPre pDefault.height (totalRisers pDefault) = 4) ∧
      (8 < pDefault.height → pDefault.height ≤ 12 →
        numFlightsPre pDefault.height (totalRisers pDefault) = 6) ∧
      (12 < pDefault.height →
        numFlightsPre pDefault.height (totalRisers pDefault) =
          (Int.ceil ((totalRisers pDefault : ℚ) / 18)).toNat)) :=
  C2_height_banded_policy pDefault (by norm_num [pDefault]) (by norm_num [pDefault])
    (by norm_num [pDefault])

/-- C5: on valid input with `totalRisers > 0`, the reported flight count is
clamped to at most the riser count. -/
theorem C5_flight_count_clamp (p : StairInputParams)
    (hR : 0 < p.riser) (hH : 0 < p.height) (hT : 0 < p.tread)
    (htr : 0 < totalRisers p) :
    (calculateStairMetrics p).num_flights ≤ totalRisers p := by
  rw [calc_of_valid p hR hH hT]
  exact numFlights_le p.height (totalRisers p) htr

/-- Witness for C5 at the default scenario. -/
theorem C5_witness :
    (calculateStairMetrics pDefault).num_flights ≤ totalRisers pDefault :=
  C5_flight_count_clamp pDefault (by norm_num [pDefault]) (by norm_num [pDefault])
    (by norm_num [pDefault]) (by norm_num [totalRisers, pDefault, round_eq])

/-- C6: for every input, `num_landings = max (num_flights - 1) 0`, stated over
ℤ so the subtraction is not truncated. -/
theorem C6_num_landings (p : StairInputParams) :
    ((calculateStairMetrics p).num_landings : ℤ) =
      max (((calculateStairMetrics p).num_flights : ℤ) - 1) 0 := by
  by_cases hcond : p.riser / 1000 ≤ 0 ∨ p.height ≤ 0 ∨ p.tread / 1000 ≤ 0
  · simp only [calculateStairMetrics, if_pos hcond]
    norm_num
  · simp only [calculateStairMetrics, if_neg hcond]
    split_ifs with h
    · omega
    · omega

/-- C3: on valid input with `totalRisers > 0`, the flight at 0-based index
`i` has `base + 1` risers when `i < extra` and `base` risers otherwise
(`base = ⌊totalRisers / num_flights⌋`, `extra = totalRisers mod num_flights`),
so the remainder is front-loaded and every flight has at least one riser. -/
theorem C3_riser_distribution (p : StairInputParams)
    (hR : 0 < p.riser) (hH : 0 < p.height) (hT : 0 < p.tread)
    (htr : 0 < totalRisers p) (i : ℕ)
    (hi : i < (calculateStairMetrics p).num_flights) :
    ∃ hlen : i < (calculateStairMetrics p).flights_data.length,
      (((calculateStairMetrics p).flights_data.get ⟨i, hlen⟩).risers =
        if i < totalRisers p % (calculateStairMetrics p).num_flights
        then totalRisers p / (calculateStairMetrics p).num_flights + 1
        else totalRisers p / (calculateStairMetrics p).num_flights) ∧
      1 ≤ ((calculateStairMetrics p).flights_data.get ⟨i, hlen⟩).risers := by
  rw [calc_of_valid p hR hH hT] at hi ⊢
  dsimp only at hi ⊢
  have hnf0 : 0 < numFlights p.height (totalRisers p) :=
    numFlights_pos p.height (totalRisers p) htr
  have hnfle : numFlights p.height (totalRisers p) ≤ totalRisers p :=
    numFlights_le p.height (totalRisers p) htr
  have hbase : 0 < totalRisers p / numFlights p.height (totalRisers p) :=
    Nat.div_pos hnfle hnf0
  rw [flightsData_of_le _ _ _ _ hnf0 hnfle]
  refine ⟨by simpa using hi, ?_, ?_⟩
  · simp only [List.get_eq_getElem, List.getElem_map, List.getElem_range, mkFlight]
    split_ifs <;> omega
  · simp only [List.get_eq_getElem, List.getElem_map, List.getElem_range, mkFlight]
    omega

/-- Witness for C3 at the default scenario, index 0 (22 risers over 2
flights: `base = 11`, `extra = 0`, so flight 0 has 11 risers). -/
theorem C3_witness :
    ∃ hlen : 0 < (calculateStairMetrics pDefault).flights_data.length,
      (((calculateStairMetrics pDefault).flights_data.get ⟨0, hlen⟩).risers =
        if 0 < totalRisers pDefault % (calculateStairMetrics pDefault).num_flights
        then totalRisers pDefault / (calculateStairMetrics pDefault).num_flights + 1
        else totalRisers pDefault / (calculateStairMetrics pDefault).num_flights) ∧
      1 ≤ ((calculateStairMetrics pDefault).flights_data.get ⟨0, hlen⟩).risers :=
  C3_riser_distribution pDefault (by norm_num [pDefault]) (by norm_num [pDefault])
    (by norm_num [pDefault]) (by norm_num [totalRisers, pDefault, round_eq]) 0
    (by rw [calc_of_valid pDefault (by norm_num [pDefault]) (by norm_num [pDefault])
          (by norm_num [pDefault])]
        norm_num [totalRisers, pDefault, round_eq, numFlights, numFlightsPre])

/-- C4: on valid input with `totalRisers > 0`, the riser counts of the
produced flights sum to `totalRisers = round(height / (riser/1000))`. -/
theorem C4_riser_conservation (p : StairInputParams)
    (hR : 0 < p.riser) (hH : 0 < p.height) (hT : 0 < p.tread)
    (htr : 0 < totalRisers p) :
    ((calculateStairMetrics p).flights_data.map FlightData.risers).sum =
      (round (p.height / (p.riser / 1000))).toNat := by
  rw [calc_of_valid p hR hH hT]
  dsimp only
  have hnf0 : 0 < numFlights p.height (totalRisers p) :=
    numFlights_pos p.height (totalRisers p) htr
  have hnfle : numFlights p.height (totalRisers p) ≤ totalRisers p :=
    numFlights_le p.height (totalRisers p) htr
  rw [flightsData_of_le _ _ _ _ hnf0 hnfle, List.map_map]
  have hcomp : FlightData.risers ∘
      (fun i => mkFlight (totalRisers p / numFlights p.height (totalRisers p) +
        if i < totalRisers p % numFlights p.height (totalRisers p) then 1 else 0)
        (p.riser / 1000) (p.tread / 1000)) =
      fun i => totalRisers p / numFlights p.height (totalRisers p) +
        if i < totalRisers p % numFlights p.height (totalRisers p) then 1 else 0 := rfl
  rw [hcomp, sum_range_const_add_ite]
  have hmod : totalRisers p % numFlights p.height (totalRisers p) <
      numFlights p.height (totalRisers p) := Nat.mod_lt _ hnf0
  rw [min_eq_left hmod.le]
  exact Nat.div_add_mod (totalRisers p) (numFlights p.height (totalRisers p))

/-- Witness for C4 at the default scenario: 11 + 11 = 22. -/
theorem C4_witness :
    ((calculateStairMetrics pDefault).flights_data.map FlightData.risers).sum =
      (round (pDefault.height / (pDefault.riser / 1000))).toNat :=
  C4_riser_conservation pDefault (by norm_num [pDefault]) (by norm_num [pDefault])
    (by norm_num [pDefault]) (by norm_num [totalRisers, pDefault, round_eq])

/-- C9: for every input the reported `num_flights` equals the length of
`flights_data` — the zero-riser skip branch of the loop is never taken. -/
theorem C9_flights_length_eq_num_flights (p : StairInputParams) :
    (calculateStairMetrics p).flights_data.length =
      (calculateStairMetrics p).num_flights := by
  by_cases hcond : p.riser / 1000 ≤ 0 ∨ p.height ≤ 0 ∨ p.tread / 1000 ≤ 0
  · simp only [calculateStairMetrics, if_pos hcond]
    rfl
  · simp only [calculateStairMetrics, if_neg hcond]
    rcases Nat.eq_zero_or_pos (totalRisers p) with h0 | hpos
    · rw [h0, numFlights_zero]
      rfl
    · rw [flightsData_of_le _ _ _ _ (numFlights_pos _ _ hpos) (numFlights_le _ _ hpos)]
      simp

/-- C7: every flight of any report satisfies the per-flight geometry:
`risers ≥ 1`, `treads = risers - 1`, `run = treads * T`, `rise = risers * R`
(with `R = riser/1000`, `T = tread/1000`) and
`inclined_length = sqrt(run² + rise²)`. -/
theorem C7_flight_geometry (p : StairInputParams) (f : FlightData)
    (hf : f ∈ (calculateStairMetrics p).flights_data) :
    1 ≤ f.risers ∧
    (f.treads : ℤ) = (f.risers : ℤ) - 1 ∧
    f.run = (f.treads : ℚ) * (p.tread / 1000) ∧
    f.rise = (f.risers : ℚ) * (p.riser / 1000) ∧
    f.inclined_length = Real.sqrt ((f.run : ℝ) ^ 2 + (f.rise : ℝ) ^ 2) := by
  by_cases hcond : p.riser / 1000 ≤ 0 ∨ p.height ≤ 0 ∨ p.tread / 1000 ≤ 0
  · simp only [calculateStairMetrics, if_pos hcond] at hf
    simp at hf
  · simp only [calculateStairMetrics, if_neg hcond] at hf
    simp only [flightsData, List.mem_filterMap, List.mem_range] at hf
    obtain ⟨i, hi, heq⟩ := hf
    by_cases hk :
        risersAt (numFlights p.height (totalRisers p)) (totalRisers p) i = 0
    · rw [if_pos hk] at heq
      exact absurd heq (by simp)
    · rw [if_neg hk] at heq
      obtain rfl : mkFlight _ _ _ = f := Option.some_inj.mp heq
      refine ⟨?_, ?_, rfl, rfl, rfl⟩
      · simp only [mkFlight]
        omega
      · simp only [mkFlight]
        omega

/-- The default scenario produces two identical flights of 11 risers,
10 treads, run 2.8 m and rise 1.98 m. -/
lemma flights_pDefault :
    (calculateStairMetrics pDefault).flights_data =
      [{ risers := 11, treads := 10, run := 14/5, rise := 99/50 },
       { risers := 11, treads := 10, run := 14/5, rise := 99/50 }] := by
  rw [calc_of_valid pDefault (by norm_num [pDefault]) (by norm_num [pDefault])
    (by norm_num [pDefault])]
  have h22 : totalRisers pDefault = 22 := by
    norm_num [totalRisers, pDefault, round_eq]
    rfl
  dsimp only
  rw [h22]
  have hnf : numFlights pDefault.height 22 = 2 := by
    norm_num [numFlights, numFlightsPre, pDefault]
  rw [hnf]
  norm_num [flightsData, risersAt, mkFlight, List.range_succ, List.filterMap_cons,
    pDefault]

/-- Witness for C7 at the first flight of the default scenario. -/
theorem C7_witness :
    ((⟨11, 10, 14/5, 99/50⟩ : FlightData) ∈
      (calculateStairMetrics pDefault).flights_data) ∧
    (1 ≤ (⟨11, 10, 14/5, 99/50⟩ : FlightData).risers ∧
     ((⟨11, 10, 14/5, 99/50⟩ : FlightData).treads : ℤ) =
       ((⟨11, 10, 14/5, 99/50⟩ : FlightData).risers : ℤ) - 1 ∧
     (⟨11, 10, 14/5, 99/50⟩ : FlightData).run =
       ((⟨11, 10, 14/5, 99/50⟩ : FlightData).treads : ℚ) * (pDefault.tread / 1000) ∧
     (⟨11, 10, 14/5, 99/50⟩ : FlightData).rise =
       ((⟨11, 10, 14/5, 99/50⟩ : FlightData).risers : ℚ) * (pDefault.riser / 1000) ∧
     (⟨11, 10, 14/5, 99/50⟩ : FlightData).inclined_length =
       Real.sqrt (((⟨11, 10, 14/5, 99/50⟩ : FlightData).run : ℝ) ^ 2 +
         ((⟨11, 10, 14/5, 99/50⟩ : FlightData).rise : ℝ) ^ 2)) := by
  have hmem : (⟨11, 10, 14/5, 99/50⟩ : FlightData) ∈
      (calculateStairMetrics pDefault).flights_data := by
    rw [flights_pDefault]
    exact List.mem_cons_self _ _
  exact ⟨hmem, C7_flight_geometry pDefault _ hmem⟩

/-- C8: on valid input, `formwork_bottom_slab` equals the folded formula
`totalInclinedLength * SW + totalInclinedLength * ST`, with the total
inclined length summed over all flights, and `formwork_above_slab = 0`. -/
theorem C8_formwork_bottom_slab_formula (p : StairInputParams)
    (hR : 0 < p.riser) (hH : 0 < p.height) (hT : 0 < p.tread) :
    formwork_bottom_slab p =
      ((calculateStairMetrics p).flights_data.map FlightData.inclined_length).sum *
        ((p.stairWidth : ℝ) / 1000) +
      ((calculateStairMetrics p).flights_data.map FlightData.inclined_length).sum *
        ((p.slabThick : ℝ) / 1000) ∧
    (calculateStairMetrics p).formwork_above_slab = 0 := by
  refine ⟨rfl, ?_⟩
  rw [calc_of_valid p hR hH hT]

/-- Witness for C8 at the default scenario. -/
theorem C8_witness :
    formwork_bottom_slab pDefault =
      ((calculateStairMetrics pDefault).flights_data.map FlightData.inclined_length).sum *
        ((pDefault.stairWidth : ℝ) / 1000) +
      ((calculateStairMetrics pDefault).flights_data.map FlightData.inclined_length).sum *
        ((pDefault.slabThick : ℝ) / 1000) ∧
    (calculateStairMetrics pDefault).formwork_above_slab = 0 :=
  C8_formwork_bottom_slab_formula pDefault (by norm_num [pDefault])
    (by norm_num [pDefault]) (by norm_num [pDefault])

/-- C10: a valid input whose rounded riser count is 0 produces the same
observable shape as the invalid-input zero report: all aggregates 0, empty
flight list, constants still echoed. -/
theorem C10_degenerate_valid_zero_report (p : StairInputParams)
    (hR : 0 < p.riser) (hH : 0 < p.height) (hT : 0 < p.tread)
    (htr : totalRisers p = 0) :
    (calculateStairMetrics p).num_flights = 0 ∧
    (calculateStairMetrics p).num_landings = 0 ∧
    (calculateStairMetrics p).total_treads = 0 ∧
    total_volume p = 0 ∧
    total_formwork_area p = 0 ∧
    formwork_bottom_slab p = 0 ∧
    (calculateStairMetrics p).formwork_landing_bottom = 0 ∧
    (calculateStairMetrics p).formwork_risers = 0 ∧
    (calculateStairMetrics p).formwork_above_slab = 0 ∧
    volume_waist_slabs p = 0 ∧
    (calculateStairMetrics p).volume_landings = 0 ∧
    (calculateStairMetrics p).volume_steps = 0 ∧
    (calculateStairMetrics p).flights_data = [] ∧
    (calculateStairMetrics p).R = p.riser / 1000 ∧
    (calculateStairMetrics p).T = p.tread / 1000 ∧
    (calculateStairMetrics p).ST = p.slabThick / 1000 ∧
    (calculateStairMetrics p).LD = p.landingDepth / 1000 ∧
    (calculateStairMetrics p).LT = p.landingThick / 1000 := by
  have hc := calc_of_valid p hR hH hT
  simp [hc, htr, numFlights_zero, flightsData, total_volume, total_formwork_area,
    formwork_bottom_slab, total_inclined_length, volume_waist_slabs]

/-- Valid input whose height (0.1 m) rounds to zero risers of 1000 mm. -/
def pDegenerate : StairInputParams :=
  { height := 1/10, stairWidth := 1950, riser := 1000, tread := 280,
    slabThick := 150, landingLength := 4100, landingDepth := 1495,
    landingThick := 200 }

/-- Witness for C10 at `pDegenerate`. -/
theorem C10_witness :
    (calculateStairMetrics pDegenerate).num_flights = 0 ∧
    (calculateStairMetrics pDegenerate).num_landings = 0 ∧
    (calculateStairMetrics pDegenerate).total_treads = 0 ∧
    total_volume pDegenerate = 0 ∧
    total_formwork_area pDegenerate = 0 ∧
    formwork_bottom_slab pDegenerate = 0 ∧
    (calculateStairMetrics pDegenerate).formwork_landing_bottom = 0 ∧
    (calculateStairMetrics pDegenerate).formwork_risers = 0 ∧
    (calculateStairMetrics pDegenerate).formwork_above_slab = 0 ∧
    volume_waist_slabs pDegenerate = 0 ∧
    (calculateStairMetrics pDegenerate).volume_landings = 0 ∧
    (calculateStairMetrics pDegenerate).volume_steps = 0 ∧
    (calculateStairMetrics pDegenerate).flights_data = [] ∧
    (calculateStairMetrics pDegenerate).R = pDegenerate.riser / 1000 ∧
    (calculateStairMetrics pDegenerate).T = pDegenerate.tread / 1000 ∧
    (calculateStairMetrics pDegenerate).ST = pDegenerate.slabThick / 1000 ∧
    (calculateStairMetrics pDegenerate).LD = pDegenerate.landingDepth / 1000 ∧
    (calculateStairMetrics pDegenerate).LT = pDegenerate.landingThick / 1000 :=
  C10_degenerate_valid_zero_report pDegenerate (by norm_num [pDegenerate])
    (by norm_num [pDegenerate]) (by norm_num [pDegenerate])
    (by norm_num [totalRisers, pDegenerate, round_eq])

end QSTools
